import Mathlib

/-!
Shallow embedding of the Cisco ASA backup orchestration engine
(`asa_backup.py`): topology inspection, retention scheduling, command plan
building, transport targeting, and backup verification, together with the
theorems settling the specification claims about these components.

Conventions of the embedding:
* device output consumed by a parser is a plain `String` argument (the value
  returned by `conn.send_command`);
* Python regular expressions over ASCII device output are translated into
  explicit character-list scans;
* a Python function that may raise is translated into an `Option`- or
  `Except`-valued function;
* `datetime` values are triples (year, month, day), with `weekday` computed
  from the proleptic Gregorian ordinal exactly as CPython computes it.
-/

namespace AsaBackup

/-- The six ASCII characters Python's `str.strip` removes and `\s` matches. -/
def isPySpace (c : Char) : Bool :=
  c = ' ' || c = '\t' || c = '\n' || c = '\r' || c = '\x0b' || c = '\x0c'

/-- Python `str.strip()`: drop leading and trailing whitespace. -/
def pyStrip (s : String) : String :=
  ⟨((s.data.dropWhile isPySpace).reverse.dropWhile isPySpace).reverse⟩

/-! ## Retention scheduler (`get_retention_slot`) -/

/-- The (year, month, day) fields of the Python `datetime` handed to
`get_retention_slot`. -/
structure PyDateTime where
  year : Nat
  month : Nat
  day : Nat
deriving DecidableEq, Repr

/-- Gregorian leap-year rule, as in CPython's `datetime` module. -/
def isLeapYear (y : Nat) : Bool :=
  (y % 4 = 0 && !(y % 100 = 0)) || y % 400 = 0

/-- Length of month `m` in year `y` (CPython `_days_in_month`). -/
def daysInMonth (y m : Nat) : Nat :=
  if m = 2 then (if isLeapYear y then 29 else 28)
  else if m = 4 ∨ m = 6 ∨ m = 9 ∨ m = 11 then 30
  else 31

/-- Days in all years before year `y` (CPython `_days_before_year`). -/
def daysBeforeYear (y : Nat) : Nat :=
  365 * (y - 1) + (y - 1) / 4 - (y - 1) / 100 + (y - 1) / 400

/-- Days in year `y` before month `m` (CPython `_days_before_month`). -/
def daysBeforeMonth (y m : Nat) : Nat :=
  ((List.range (m - 1)).map (fun i => daysInMonth y (i + 1))).sum

/-- CPython `date.toordinal()`: day count since 0001-01-01 has ordinal 1. -/
def toOrdinal (d : PyDateTime) : Nat :=
  daysBeforeYear d.year + daysBeforeMonth d.year d.month + d.day

/-- CPython `date.weekday()`: Monday is 0, Sunday is 6. -/
def pyWeekday (d : PyDateTime) : Nat :=
  (toOrdinal d + 6) % 7

/-- `get_retention_slot` from the source: yearly on Jan 1, monthly on the
first of any other month, daily (keyed by weekday) otherwise. -/
def get_retention_slot (d : PyDateTime) : String :=
  if d.day = 1 ∧ d.month = 1 then "yearly_" ++ toString d.year
  else if d.day = 1 then "monthly_" ++ toString d.month
  else "daily_" ++ toString (pyWeekday d)

/-! ## Version detection (`get_version`) -/

/-- The four version fields parsed by `get_version`. -/
structure Version where
  major : Nat
  minor : Nat
  maintenance : Nat
  interim : Nat
deriving DecidableEq, Repr

/-- Maximal runs of ASCII digits in a character list, in order
(Python `re.findall(r'\d+', output)` on ASCII text). The second argument
accumulates the current run in reverse. -/
def digitRunsAux : List Char → List Char → List (List Char)
  | [], cur => if cur = [] then [] else [cur.reverse]
  | c :: t, cur =>
    if c.isDigit then digitRunsAux t (c :: cur)
    else if cur = [] then digitRunsAux t []
    else cur.reverse :: digitRunsAux t []

/-- Numeric value of a digit run (Python `int`). -/
def natOfDigits (l : List Char) : Nat :=
  l.foldl (fun n c => 10 * n + (c.toNat - 48)) 0

/-- All numeric tokens of a string, in order. -/
def findallDigits (s : String) : List Nat :=
  (digitRunsAux s.data []).map natOfDigits

/-- `get_version`: the first four numeric tokens of the `show version` output
line become major, minor, maintenance, interim; fewer than four tokens raise
(modelled as `none`). -/
def get_version (output : String) : Option Version :=
  match findallDigits output with
  | a :: b :: c :: d :: _ => some ⟨a, b, c, d⟩
  | _ => none

/-- The full-backup gate exactly as written in `run_backup`:
`ver["major"] >= 9 and ver["minor"] >= 3 and ver["maintenance"] >= 2`. -/
def backup_available (v : Version) : Bool :=
  9 ≤ v.major && 3 ≤ v.minor && 2 ≤ v.maintenance

/-- Modelled from the spec's words: the detected software version is at
least 9.3(2), i.e. (major, minor, maintenance) ≥ (9, 3, 2) in lexicographic
order. Stated for comparison with the source's `backup_available` gate. -/
def version_ge_932 (v : Version) : Bool :=
  9 < v.major || (v.major = 9 && (3 < v.minor || (v.minor = 3 && 2 ≤ v.maintenance)))

/-! ## Failover units (`get_failover_units`) -/

/-- `get_failover_units`: start from `["active"]`, append `"standby"` when
`re.match(r'^Failover On', output)` succeeds, i.e. when the response text
begins with `Failover On`. -/
def get_failover_units (output : String) : List String :=
  if List.isPrefixOf "Failover On".data output.data then ["active", "standby"]
  else ["active"]

/-! ## Context discovery (`get_contexts`) -/

/-- Character class `[A-Za-z0-9\-]` of the context-name pattern. -/
def isCtxChar (c : Char) : Bool :=
  c.isAlpha || c.isDigit || c = '-'

/-- One line of `show context` output matched against
`re.search(r'^[ \*]([A-Za-z0-9\-]+)', line)`: the line must begin with a
space or `*`, and the captured name is the maximal following run of
letters, digits and hyphens (nonempty). -/
def ctx_of_chars : List Char → Option String
  | [] => none
  | c :: rest =>
    if c = ' ' ∨ c = '*' then
      let name := rest.takeWhile isCtxChar
      if name = [] then none else some ⟨name⟩
    else none

/-- One line of `show context` output, matched as above. -/
def ctx_of_line (line : String) : Option String :=
  ctx_of_chars line.data

/-- `get_contexts`: scan every output line, keep the captured names in
order. -/
def get_contexts (output : String) : List String :=
  (output.splitOn "\n").filterMap ctx_of_line

/-! ## Transport executor (`run_batch_commands`) -/

/-- `run_batch_commands`: the list of strings handed to
`conn.send_command`, in order. A batch for the standby unit has every
command rewritten to `failover exec standby <command>`; any other unit's
commands are sent verbatim. -/
def run_batch_commands (commands : List String) (unit : String) : List String :=
  commands.map (fun command =>
    if unit = "standby" then "failover exec " ++ unit ++ " " ++ command
    else command)

/-! ## Command plan builder (`copy_tech_support`, `copy_config`, `run_backup`) -/

/-- The staged tech-support filename. -/
def tech_support_file (unit : String) : String :=
  "tech-support_" ++ unit ++ ".txt"

/-- `copy_tech_support`: stage to flash, copy to the destination URL, delete
the staged file. -/
def copy_tech_support (unit backup_url ihack : String) : List String :=
  [ "show tech-support file flash:/" ++ tech_support_file unit,
    "copy /noconfirm flash:/" ++ tech_support_file unit ++ " " ++ backup_url
      ++ "/" ++ tech_support_file unit ++ ihack,
    "delete /noconfirm flash:/" ++ tech_support_file unit ]

/-- `re.search(r'^\s*config-url\s+(\S+)', output)`: the response must be
leading whitespace, the literal `config-url`, at least one whitespace
character, then the captured maximal nonempty run of non-whitespace. -/
def parse_config_url (s : String) : Option String :=
  let cs := s.data.dropWhile isPySpace
  if List.isPrefixOf "config-url".data cs then
    let rest := cs.drop 10
    match rest with
    | [] => none
    | c :: _ =>
      if isPySpace c then
        let tok := (rest.dropWhile isPySpace).takeWhile (fun ch => !(isPySpace ch))
        if tok = [] then none else some ⟨tok⟩
      else none
  else none

/-- `copy_config`: the command list built for one unit. `lookup` gives the
response to `show run context <context> | include config-url`; a context
whose response does not match the pattern is silently skipped. -/
def copy_config (unit backup_url ihack : String) (contexts : List String)
    (lookup : String → String) : List String :=
  [ "copy /noconfirm running-config " ++ backup_url ++ "/running-config_"
      ++ unit ++ ".cfg" ++ ihack,
    "copy /noconfirm startup-config " ++ backup_url ++ "/startup-config_"
      ++ unit ++ ".cfg" ++ ihack ]
  ++ contexts.filterMap (fun context =>
      (parse_config_url (lookup context)).map (fun srcfile =>
        "copy /noconfirm " ++ srcfile ++ " " ++ backup_url ++ "/context_"
          ++ context ++ "_" ++ unit ++ ".cfg" ++ ihack))

/-- Outcome of `run_backup`: whether the skip message was printed, and the
command batches handed to `run_batch_commands` (one batch in single-context
mode, one per backup target otherwise). -/
structure BackupPhase where
  skipped : Bool
  batches : List (List String)
deriving DecidableEq, Repr

/-- The stage-copy-delete triple of the single-context branch of
`run_backup`. -/
def backup_single_batch (unit backup_url ihack passphrase : String) : List String :=
  [ "backup /noconfirm passphrase " ++ passphrase ++ " location flash:/"
      ++ ("backup_" ++ unit ++ ".tar.gz"),
    "copy /noconfirm flash:/" ++ ("backup_" ++ unit ++ ".tar.gz") ++ " "
      ++ backup_url ++ "/" ++ ("backup_" ++ unit ++ ".tar.gz") ++ ihack,
    "delete /noconfirm flash:/" ++ ("backup_" ++ unit ++ ".tar.gz") ]

/-- The stage-copy-delete triple of the per-context loop of `run_backup`. -/
def backup_context_batch (context unit backup_url ihack passphrase : String) :
    List String :=
  [ "backup /noconfirm context " ++ context ++ " passphrase " ++ passphrase
      ++ " location flash:/" ++ ("backup_" ++ context ++ "_" ++ unit ++ ".tar.gz"),
    "copy /noconfirm flash:/" ++ ("backup_" ++ context ++ "_" ++ unit ++ ".tar.gz")
      ++ " " ++ backup_url ++ "/" ++ ("backup_" ++ context ++ "_" ++ unit ++ ".tar.gz")
      ++ ihack,
    "delete /noconfirm flash:/" ++ ("backup_" ++ context ++ "_" ++ unit ++ ".tar.gz") ]

/-- `run_backup` for one unit. `ver` is the version parsed by `get_version`
over the session. Below the gate the phase only prints the skip message and
returns; otherwise single-context mode produces one triple, and context
mode produces one triple per target, `"system"` prepended to the declared
contexts. -/
def run_backup (ver : Version) (unit backup_url ihack : String)
    (contexts : List String) (passphrase : String) : BackupPhase :=
  if !(backup_available ver) then ⟨true, []⟩
  else if contexts = [] then
    ⟨false, [backup_single_batch unit backup_url ihack passphrase]⟩
  else
    ⟨false, ("system" :: contexts).map
      (fun context => backup_context_batch context unit backup_url ihack passphrase)⟩

/-- The commands actually sent by `run_backup` for one unit: each batch goes
through `run_batch_commands`. -/
def run_backup_sent (ver : Version) (unit backup_url ihack : String)
    (contexts : List String) (passphrase : String) : List String :=
  ((run_backup ver unit backup_url ihack contexts passphrase).batches).flatMap
    (fun b => run_batch_commands b unit)

/-- One iteration of the per-unit loop of `backup_firewall` (tech-support,
then config, then full backup), as the ordered list of sent commands. -/
def backup_unit_sent (ver : Version) (unit backup_url ihack : String)
    (contexts : List String) (lookup : String → String) (passphrase : String) :
    List String :=
  run_batch_commands (copy_tech_support unit backup_url ihack) unit
  ++ run_batch_commands (copy_config unit backup_url ihack contexts lookup) unit
  ++ run_backup_sent ver unit backup_url ihack contexts passphrase

/-- The whole per-unit loop: every sent command tagged with the unit it was
issued for, active unit first. -/
def backup_units_sent (ver : Version) (units : List String)
    (backup_url ihack : String) (contexts : List String)
    (lookup : String → String) (passphrase : String) : List (String × String) :=
  units.flatMap (fun unit =>
    (backup_unit_sent ver unit backup_url ihack contexts lookup passphrase).map
      (fun c => (unit, c)))

/-! ## Verification engine (`find_cryptochecksum`, `compare_files`) -/

/-- Character class `[0-9a-f]` of the checksum pattern. -/
def isHexLower (c : Char) : Bool :=
  c.isDigit || ('a' ≤ c && c ≤ 'f')

/-- One line matched against `re.match(r'^Cryptochecksum:([0-9a-f]+)$',
line.strip())`: the stripped line must be exactly `Cryptochecksum:` followed
by a nonempty run of lowercase hex digits, which is the captured checksum. -/
def cryptochecksum_of_line (line : String) : Option String :=
  let t := (pyStrip line).data
  if List.isPrefixOf "Cryptochecksum:".data t then
    let h := t.drop 15
    if h = [] then none
    else if h.all isHexLower then some ⟨h⟩ else none
  else none

/-- `find_cryptochecksum`: fold over all lines keeping the last match;
`none` models the Python `False` returned when no line matches. -/
def find_cryptochecksum (lines : List String) : Option String :=
  lines.foldl (fun checksum line =>
    match cryptochecksum_of_line line with
    | some c => some c
    | none => checksum) none

/-- The emission decision of `compare_files` once both files were read:
the unified diff is printed exactly when the two extracted checksum values
differ (`file1_cksum != file2_cksum` in the source). -/
def compare_files_emits_diff (file1_lines file2_lines : List String) : Bool :=
  !(find_cryptochecksum file1_lines == find_cryptochecksum file2_lines)

/-! ## Per-device error containment (`backup_firewall` and the main loop)

The session portion of `backup_firewall` (lines 510-530 of the source) is
modelled as a sequential interpretation of the `try` block over the
outcomes of the external effects it performs; an `Except.error` input at a
step models the session transport raising at that step. The two reachability
guards before the `try` return early and are modelled as booleans. The
`os.makedirs` call can only fail on the local filesystem, not the session,
and is outside the scope of the transport claims, so it is not modelled. -/

/-- Outcomes of the external effects `backup_firewall` performs over the
session, in program order. `unitPhase u` aggregates the three per-unit
calls (`copy_tech_support`, `copy_config`, `run_backup`) for unit `u`. -/
structure SessionEffects where
  connect : Except String Unit
  showModeOut : Except String String
  showFailoverOut : Except String String
  changetoSystem : Except String Unit
  showContextOut : Except String String
  showInterfaceOut : Except String String
  unitPhase : String → Except String Unit

/-- `re.search(r'Security context mode: (single|multiple)', output)`:
first position where either alternative matches; `none` models the
`AttributeError` raised by `match.group(1)` on a failed search. -/
def get_context_mode_search : List Char → Option String
  | [] => none
  | l@(_ :: t) =>
    if List.isPrefixOf "Security context mode: single".data l then some "single"
    else if List.isPrefixOf "Security context mode: multiple".data l then some "multiple"
    else get_context_mode_search t

/-- The `for unit in failover_units` loop: first transport error, if any. -/
def run_units_phase (units : List String) (phase : String → Except String Unit) :
    Option String :=
  match units with
  | [] => none
  | u :: rest =>
    match phase u with
    | .error e => some e
    | .ok _ => run_units_phase rest phase

/-- What the `try` block leaves behind: the values of the local variables
`failover_units` and `contexts` (`none` when the exception struck before
their assignment), and the exception caught by `except Exception`, if any. -/
structure TryResult where
  failover_units : Option (List String)
  contexts : Option (List String)
  exc : Option String
deriving DecidableEq, Repr

/-- The `try` block of `backup_firewall`, step by step: connect, read the
context mode, read the failover status, then either the multiple-context
branch (`changeto system`, `show context`) or the single-context branch
(interface probe), then the per-unit loop. -/
def backup_try_body (eff : SessionEffects) : TryResult :=
  match eff.connect with
  | .error e => ⟨none, none, some e⟩
  | .ok _ =>
    match eff.showModeOut with
    | .error e => ⟨none, none, some e⟩
    | .ok modeOut =>
      match get_context_mode_search modeOut.data with
      | none => ⟨none, none, some "AttributeError"⟩
      | some context_mode =>
        match eff.showFailoverOut with
        | .error e => ⟨none, none, some e⟩
        | .ok foOut =>
          let fu := get_failover_units foOut
          if context_mode = "multiple" then
            match eff.changetoSystem with
            | .error e => ⟨some fu, none, some e⟩
            | .ok _ =>
              match eff.showContextOut with
              | .error e => ⟨some fu, none, some e⟩
              | .ok ctxOut =>
                ⟨some fu, some (get_contexts ctxOut), run_units_phase fu eff.unitPhase⟩
          else
            match eff.showInterfaceOut with
            | .error e => ⟨some fu, none, some e⟩
            | .ok _ => ⟨some fu, some [], run_units_phase fu eff.unitPhase⟩

/-- `backup_firewall` for one device. `.ok rep` means the call returned
normally, `rep` being the reported (printed) backup error if one was
caught; `.error` means an exception escaped `backup_firewall`. A caught
exception is first printed, then line 530 evaluates
`verify_backup(destdir, failover_units, contexts)`: if either local is
still unassigned this raises `UnboundLocalError`, outside any handler. -/
def backup_firewall (resolvable reachable : Bool) (eff : SessionEffects) :
    Except String (Option String) :=
  if !resolvable then .ok (some "not resolvable")
  else if !reachable then .ok (some "not reachable")
  else
    let r := backup_try_body eff
    match r.exc with
    | none => .ok none
    | some e =>
      match r.failover_units with
      | none => .error "UnboundLocalError: failover_units"
      | some _ =>
        match r.contexts with
        | none => .error "UnboundLocalError: contexts"
        | some _ => .ok (some e)

/-- One device of a batch: its reachability guards and its session. -/
structure DeviceRun where
  resolvable : Bool
  reachable : Bool
  eff : SessionEffects

/-- The `for fw in firewalls` loop of `__main__`: devices are processed in
order; an exception escaping `backup_firewall` terminates the process, so
the remaining devices are never attempted. -/
def main_backup_loop : List DeviceRun → Except String (List (Option String))
  | [] => .ok []
  | d :: rest =>
    match backup_firewall d.resolvable d.reachable d.eff with
    | .error e => .error e
    | .ok rep =>
      match main_backup_loop rest with
      | .error e => .error e
      | .ok reps => .ok (rep :: reps)

/-- A healthy single-context session: every effect succeeds. -/
def healthySession : SessionEffects :=
  ⟨.ok (), .ok "Security context mode: single", .ok "Failover Off", .ok (),
   .ok "", .ok "Interface inside is up", fun _ => .ok ()⟩

/-- A session whose SSH connection itself fails (authentication refused):
the exception strikes before `failover_units` is assigned. -/
def authFailSession : SessionEffects :=
  ⟨.error "Authentication failed", .ok "", .ok "", .ok (), .ok "", .ok "",
   fun _ => .ok ()⟩

/-- A session that fails late: topology discovery succeeds, the per-unit
command phase times out on the standby unit. -/
def lateFailSession : SessionEffects :=
  ⟨.ok (), .ok "Security context mode: single", .ok "Failover On", .ok (),
   .ok "", .ok "Interface inside is up",
   fun u => if u = "standby" then .error "Read timeout" else .ok ()⟩


/-! ## Helper lemmas -/

/-- `takeWhile` over a list that satisfies the predicate up to a first
failing element captures exactly the satisfying part. -/
theorem takeWhile_append_stop (p : Char → Bool) :
    ∀ (good : List Char) (b : Char) (tail : List Char),
      (∀ x ∈ good, p x = true) → p b = false →
      (good ++ b :: tail).takeWhile p = good := by
  intro good b tail hg hb
  induction good with
  | nil => simp [List.takeWhile_cons, hb]
  | cons a t ih =>
    have ha : p a = true := hg a (by simp)
    rw [List.cons_append, List.takeWhile_cons, ha]
    simp only [ite_true]
    rw [ih (fun x hx => hg x (by simp [hx]))]

/-- A list that is a prefix of `l ++ r` and no longer than `l` is already a
prefix of `l`. -/
theorem pfx_of_pfx_append (w : List Char) :
    ∀ (l r : List Char), w.length ≤ l.length → w <+: l ++ r → w <+: l := by
  induction w with
  | nil => intro l r _ _; exact List.nil_prefix
  | cons a w ih =>
    intro l r hlen h
    cases l with
    | nil => simp at hlen
    | cons b t =>
      rw [List.cons_append] at h
      rcases List.cons_prefix_cons.mp h with ⟨hab, hwt⟩
      exact List.cons_prefix_cons.mpr ⟨hab, ih t r (by simpa using hlen) hwt⟩

/-- A command starting with a literal at least as long as the failover-exec
wrapper token and not starting with that token cannot start with it after
any suffix is appended. -/
theorem no_failover_pfx_of_append (lit : String) (r : List Char)
    (hlen : ("failover exec ").data.length ≤ lit.data.length)
    (hne : ¬ ("failover exec ".data <+: lit.data)) :
    ¬ ("failover exec ".data <+: lit.data ++ r) :=
  fun h => hne (pfx_of_pfx_append _ _ _ hlen h)

/-! ## Claim theorems -/

/-- C1: evaluation of the full-backup version gate at the failing inputs.
The spec-side ordering `version_ge_932` holds of version 9.4(1)8 — it is at
least 9.3(2) — yet the gate written in `run_backup` rejects it, so the
full-backup phase prints the skip message and produces no commands.
Moreover for the spec scenario version string "9.1(5)" `get_version` finds
only three numeric tokens and raises (modelled as `none`) instead of
returning a version below 9.3(2). -/
theorem run_backup_gate_rejects_941 :
    get_version "Cisco Adaptive Security Appliance Software Version 9.4(1)8"
      = some ⟨9, 4, 1, 8⟩
    ∧ version_ge_932 ⟨9, 4, 1, 8⟩ = true
    ∧ backup_available ⟨9, 4, 1, 8⟩ = false
    ∧ run_backup ⟨9, 4, 1, 8⟩ "active" "scp://backup" "" [] "pw" = ⟨true, []⟩
    ∧ run_backup_sent ⟨9, 4, 1, 8⟩ "active" "scp://backup" "" [] "pw" = []
    ∧ get_version "Cisco Adaptive Security Appliance Software Version 9.1(5)" = none := by
  refine ⟨by decide, by decide, by decide, by decide, by decide, by decide⟩

/-- C2: for every timestamp the retention slot is chosen by exclusive
priority on day and month — `yearly_<year>` on Jan 1, `monthly_<month>` on
the first of any other month, `daily_<weekday>` otherwise with the weekday
in [0, 6] — and exactly one of the three rules applies. -/
theorem get_retention_slot_cases (d : PyDateTime) :
    (d.day = 1 ∧ d.month = 1 → get_retention_slot d = "yearly_" ++ toString d.year)
    ∧ (d.day = 1 ∧ d.month ≠ 1 → get_retention_slot d = "monthly_" ++ toString d.month)
    ∧ (d.day ≠ 1 → get_retention_slot d = "daily_" ++ toString (pyWeekday d) ∧ pyWeekday d ≤ 6)
    ∧ ((d.day = 1 ∧ d.month = 1) ∨ (d.day = 1 ∧ d.month ≠ 1) ∨ d.day ≠ 1)
    ∧ ¬((d.day = 1 ∧ d.month = 1) ∧ (d.day = 1 ∧ d.month ≠ 1))
    ∧ ¬((d.day = 1 ∧ d.month = 1) ∧ d.day ≠ 1)
    ∧ ¬((d.day = 1 ∧ d.month ≠ 1) ∧ d.day ≠ 1) := by
  have hw : pyWeekday d ≤ 6 := by
    have h := Nat.mod_lt (toOrdinal d + 6) (show 0 < 7 by norm_num)
    unfold pyWeekday
    omega
  refine ⟨fun h => ?_, fun h => ?_, fun h => ⟨?_, hw⟩, ?_, ?_, ?_, ?_⟩
  · simp [get_retention_slot, h.1, h.2]
  · simp [get_retention_slot, h.1, h.2]
  · simp [get_retention_slot, h]
  · tauto
  · tauto
  · tauto
  · tauto

/-- Witness for C2: the retention slot at three concrete dates — New Year
2024, February 1st 2024, and October 12th 2025 (not a first of month). -/
theorem get_retention_slot_cases_witness :
    get_retention_slot ⟨2024, 1, 1⟩ = "yearly_" ++ toString 2024
    ∧ get_retention_slot ⟨2024, 2, 1⟩ = "monthly_" ++ toString 2
    ∧ get_retention_slot ⟨2025, 10, 12⟩ = "daily_" ++ toString (pyWeekday ⟨2025, 10, 12⟩) :=
  ⟨(get_retention_slot_cases ⟨2024, 1, 1⟩).1 ⟨rfl, rfl⟩,
   (get_retention_slot_cases ⟨2024, 2, 1⟩).2.1 ⟨rfl, by decide⟩,
   ((get_retention_slot_cases ⟨2025, 10, 12⟩).2.2.1 (by decide)).1⟩

/-- C3 counterexample: two readable files neither of which contains any
`Cryptochecksum` line (and whose contents differ) are reported as matching —
no diff is emitted — because the two absent checksums compare equal,
contradicting the claim that an absent checksum is treated as a mismatch. -/
theorem compare_files_missing_checksums_no_diff :
    find_cryptochecksum ["interface inside"] = none
    ∧ find_cryptochecksum ["interface outside"] = none
    ∧ ("interface inside" : String) ≠ "interface outside"
    ∧ compare_files_emits_diff ["interface inside"] ["interface outside"] = false := by
  refine ⟨by decide, by decide, by decide, by decide⟩

/-- C3 amended: two files are reported as matching (no diff emitted) iff
their extracted checksum values agree — either both present and equal, or
both absent. In particular a checksum absent from exactly one file is a
mismatch, but a checksum absent from both files is reported as a match. -/
theorem compare_files_match_characterisation (file1_lines file2_lines : List String) :
    compare_files_emits_diff file1_lines file2_lines = false
    ↔ ((∃ c, find_cryptochecksum file1_lines = some c
          ∧ find_cryptochecksum file2_lines = some c)
       ∨ (find_cryptochecksum file1_lines = none
          ∧ find_cryptochecksum file2_lines = none)) := by
  unfold compare_files_emits_diff
  cases h1 : find_cryptochecksum file1_lines <;>
    cases h2 : find_cryptochecksum file2_lines <;> simp
  exact eq_comm

/-- C4: evaluation of the per-device error containment at the failing
input. A transport failure during connection (authentication refused)
leaves `failover_units` unassigned: the caught exception is reported, but
the `verify_backup` call then raises `UnboundLocalError` outside any
handler, so the batch loop aborts and the healthy second device is never
processed — contradicting the claim that no single device's session
failure aborts the whole batch. A failure after topology discovery is
contained (`.ok` with the reported message), as is a healthy run. -/
theorem transport_failure_aborts_batch :
    backup_firewall true true authFailSession = .error "UnboundLocalError: failover_units"
    ∧ main_backup_loop [⟨true, true, authFailSession⟩, ⟨true, true, healthySession⟩]
      = .error "UnboundLocalError: failover_units"
    ∧ backup_firewall true true healthySession = .ok none
    ∧ backup_firewall true true lateFailSession = .ok (some "Read timeout") := by
  refine ⟨rfl, rfl, rfl, rfl⟩

/-- C5: the executor sends commands in order and applies unit targeting
textually — every command of a standby batch is sent as
`failover exec standby <command>`, every command of an active batch is sent
exactly as given, and the sent list has one entry per command. -/
theorem run_batch_commands_targeting (commands : List String) :
    run_batch_commands commands "standby"
      = commands.map (fun command => "failover exec standby " ++ command)
    ∧ run_batch_commands commands "active" = commands
    ∧ (run_batch_commands commands "standby").length = commands.length := by
  refine ⟨?_, ?_, by simp [run_batch_commands]⟩
  · unfold run_batch_commands
    simp
  · unfold run_batch_commands
    simp

/-- C6: for a single-context topology (no contexts, version passing the
full-backup gate) the plan for the active unit is exactly 8 commands —
3 tech-support, 2 config, 3 backup — and a unit other than `active`
receives no commands at all. -/
theorem single_context_active_plan (ver : Version) (backup_url ihack passphrase : String)
    (lookup : String → String) (hv : backup_available ver = true) :
    (copy_tech_support "active" backup_url ihack).length = 3
    ∧ (copy_config "active" backup_url ihack [] lookup).length = 2
    ∧ (run_backup_sent ver "active" backup_url ihack [] passphrase).length = 3
    ∧ (backup_unit_sent ver "active" backup_url ihack [] lookup passphrase).length = 8
    ∧ (∀ u : String, u ≠ "active" →
        (backup_units_sent ver ["active"] backup_url ihack [] lookup passphrase).filter
          (fun p => p.1 == u) = []) := by
  refine ⟨rfl, rfl, ?_, ?_, ?_⟩
  · simp [run_backup_sent, run_backup, hv, backup_single_batch, run_batch_commands]
  · simp [backup_unit_sent, run_batch_commands, copy_tech_support, copy_config,
      run_backup_sent, run_backup, hv, backup_single_batch]
  · intro u hu
    have hbeq : ("active" == u) = false := by
      simp only [beq_eq_false_iff_ne]
      exact fun e => hu e.symm
    simp [backup_units_sent, backup_unit_sent, run_batch_commands, copy_tech_support,
      copy_config, run_backup_sent, run_backup, hv, backup_single_batch,
      List.filter, hbeq]

/-- Witness for C6: the concrete plan at version 9.16(3)23 has 8 active
commands and none for the standby unit. -/
theorem single_context_active_plan_witness :
    backup_available ⟨9, 16, 3, 23⟩ = true
    ∧ (backup_unit_sent ⟨9, 16, 3, 23⟩ "active" "scp://backup" "" []
        (fun _ => "") "pw").length = 8
    ∧ (backup_units_sent ⟨9, 16, 3, 23⟩ ["active"] "scp://backup" "" []
        (fun _ => "") "pw").filter (fun p => p.1 == "standby") = [] :=
  ⟨by decide,
   (single_context_active_plan ⟨9, 16, 3, 23⟩ "scp://backup" "" "pw"
      (fun _ => "") (by decide)).2.2.2.1,
   (single_context_active_plan ⟨9, 16, 3, 23⟩ "scp://backup" "" "pw"
      (fun _ => "") (by decide)).2.2.2.2 "standby" (by decide)⟩

/-- C7: for contexts `["ctx1", "ctx2"]` (version passing the gate) the
full-backup phase produces three batches of 3 commands — the first for the
implicitly included `system` target — 9 sent commands per unit; every
standby-sent command starts with the failover-exec wrapping and no
active-sent command starts with the wrapper token. -/
theorem multi_context_backup_per_unit (ver : Version)
    (backup_url ihack passphrase : String) (hv : backup_available ver = true) :
    (∀ unit : String,
      ((run_backup ver unit backup_url ihack ["ctx1", "ctx2"] passphrase).batches).map
          List.length = [3, 3, 3]
      ∧ ((run_backup ver unit backup_url ihack ["ctx1", "ctx2"] passphrase).batches).head?
          = some (backup_context_batch "system" unit backup_url ihack passphrase)
      ∧ (run_backup_sent ver unit backup_url ihack ["ctx1", "ctx2"] passphrase).length = 9)
    ∧ (∀ c ∈ run_backup_sent ver "standby" backup_url ihack ["ctx1", "ctx2"] passphrase,
        "failover exec standby ".data <+: c.data)
    ∧ (∀ c ∈ run_backup_sent ver "active" backup_url ihack ["ctx1", "ctx2"] passphrase,
        ¬ ("failover exec ".data <+: c.data)) := by
  refine ⟨?_, ?_, ?_⟩
  · intro unit
    refine ⟨?_, ?_, ?_⟩
    · simp [run_backup, hv, backup_context_batch]
    · simp [run_backup, hv]
    · simp [run_backup_sent, run_backup, hv, backup_context_batch, run_batch_commands]
  · intro c hc
    simp [run_backup_sent, run_backup, hv, backup_context_batch, run_batch_commands] at hc
    rcases hc with rfl | rfl | rfl | rfl | rfl | rfl | rfl | rfl | rfl <;>
      first
      | (rw [String.data_append]; exact List.prefix_append _ _)
      | decide
  · intro c hc
    simp [run_backup_sent, run_backup, hv, backup_context_batch, run_batch_commands] at hc
    rcases hc with rfl | rfl | rfl | rfl | rfl | rfl | rfl | rfl | rfl <;>
      first
      | decide
      | (simp only [String.data_append, List.append_assoc];
         exact no_failover_pfx_of_append _ _ (by decide) (by decide))

/-- Witness for C7: at version 9.16(3)23 the standby unit's full-backup
phase sends 9 commands. -/
theorem multi_context_backup_per_unit_witness :
    backup_available ⟨9, 16, 3, 23⟩ = true
    ∧ (run_backup_sent ⟨9, 16, 3, 23⟩ "standby" "scp://backup" "" ["ctx1", "ctx2"]
        "pw").length = 9 :=
  ⟨by decide,
   ((multi_context_backup_per_unit ⟨9, 16, 3, 23⟩ "scp://backup" "" "pw"
      (by decide)).1 "standby").2.2⟩

/-- C8: a context whose config-url lookup response does not match the
pattern contributes no copy command and raises no error — the command list
is exactly the one built without that context, so the two base config
copies and all other contexts' copies are unaffected. -/
theorem copy_config_skips_unmatched (unit backup_url ihack : String)
    (lookup : String → String) (pre post : List String) (ctx : String)
    (h : parse_config_url (lookup ctx) = none) :
    copy_config unit backup_url ihack (pre ++ ctx :: post) lookup
      = copy_config unit backup_url ihack (pre ++ post) lookup := by
  unfold copy_config
  simp [List.filterMap_append, List.filterMap_cons, h]

/-- Witness for C8: a lookup response matching nothing removes exactly the
failing context from the plan. -/
theorem copy_config_skips_unmatched_witness :
    parse_config_url "INFO: context not found" = none
    ∧ copy_config "active" "scp://backup" "" ["ctx1"] (fun _ => "INFO: context not found")
      = copy_config "active" "scp://backup" "" [] (fun _ => "INFO: context not found") :=
  ⟨by decide, copy_config_skips_unmatched "active" "scp://backup" ""
      (fun _ => "INFO: context not found") [] [] "ctx1" (by decide)⟩

/-- C9 counterexample: a response that contains `Failover On` right after
its first character — so the literal token `On` follows `Failover` within
the text — still yields only `["active"]`, because the source anchors the
pattern at the start of the response; mere containment does not append the
standby unit. -/
theorem get_failover_units_contains_not_sufficient :
    ("Failover On".data <:+: "-Failover On".data)
    ∧ get_failover_units "-Failover On" = ["active"] := by
  constructor
  · exact ⟨['-'], [], by decide⟩
  · decide

/-- C9 amended: the unit list always has `active` first, `standby` is a
member iff the response text starts with `Failover On`, and the list is
exactly `["active"]` or `["active", "standby"]`. -/
theorem get_failover_units_characterisation (output : String) :
    (get_failover_units output).head? = some "active"
    ∧ ("standby" ∈ get_failover_units output
        ↔ List.isPrefixOf "Failover On".data output.data = true)
    ∧ (get_failover_units output = ["active"]
       ∨ get_failover_units output = ["active", "standby"]) := by
  unfold get_failover_units
  split <;> simp_all

/-- C10: a line contributes a context only when its first character is a
space or `*`; the recorded name is the maximal leading run of letters,
digits and hyphens that follows (so a name is truncated at the first other
character, such as an underscore), and it must be nonempty. -/
theorem ctx_line_acceptance :
    (ctx_of_chars [] = none)
    ∧ (∀ (c : Char) (rest : List Char), ¬(c = ' ' ∨ c = '*') →
        ctx_of_chars (c :: rest) = none)
    ∧ (∀ (c : Char) (good : List Char) (b : Char) (tail : List Char),
        (c = ' ' ∨ c = '*') → good ≠ [] → (∀ x ∈ good, isCtxChar x = true) →
        isCtxChar b = false →
        ctx_of_chars (c :: (good ++ b :: tail)) = some ⟨good⟩)
    ∧ (∀ (c : Char) (good : List Char),
        (c = ' ' ∨ c = '*') → good ≠ [] → (∀ x ∈ good, isCtxChar x = true) →
        ctx_of_chars (c :: good) = some ⟨good⟩)
    ∧ (∀ line : String, ctx_of_line line = ctx_of_chars line.data) := by
  refine ⟨rfl, ?_, ?_, ?_, fun _ => rfl⟩
  · intro c rest hc
    simp [ctx_of_chars, hc]
  · intro c good b tail hc hne hg hb
    have ht := takeWhile_append_stop isCtxChar good b tail hg hb
    simp [ctx_of_chars, hc, ht, hne]
  · intro c good hc hne hg
    have ht : good.takeWhile isCtxChar = good := List.takeWhile_eq_self_iff.mpr hg
    simp [ctx_of_chars, hc, ht, hne]

/-- Witness for C10: the line ` ab_cd` records the name truncated at the
underscore, and a line starting with `x` records nothing. -/
theorem ctx_line_acceptance_witness :
    ctx_of_line " ab_cd" = some "ab"
    ∧ ctx_of_line "xabc" = none := by
  constructor
  · exact ctx_line_acceptance.2.2.1 ' ' ['a', 'b'] '_' ['c', 'd']
      (Or.inl rfl) (by decide) (by decide) (by decide)
  · exact ctx_line_acceptance.2.1 'x' ['a', 'b', 'c'] (by decide)

end AsaBackup
